import Mathlib

/-!
Verification development for the live cooking-assistant orchestrator
(`ChefApp`): a shallow embedding of its timer engine, audio playback
scheduler, tool-call dispatcher, connection lifecycle, and vision
timer-suggestion handler, with theorems checking the stated design
properties against these definitions.

All definitions are translated from the orchestrator source
(`src/unnamed/part_009`, the fullest variant; the `ChefApp.tsx` variants
share the same logic for the parts modelled here).  JavaScript numbers are
modelled as rationals; JS `Set` objects as duplicate-free lists; the React
state/ref pair `timers` / `timersRef.current` is modelled by two list
fields, since the ref is only synchronised with the state by an effect
that runs after the current message handler returns.
-/

namespace Chef

/-- Timer status, from the `Timer` type (`status ∈ running|paused|finished`). -/
inductive TimerStatus
  | running
  | paused
  | finished
deriving DecidableEq, Repr

/-- A countdown timer, from `@/types/chef`'s `Timer` as used in `part_009`:
`id` (opaque unique identifier, modelled as a natural), `label`,
`durationOriginal`, `durationRemaining` (JS numbers, modelled as ℚ), `status`. -/
structure Timer where
  id : ℕ
  label : String
  durationOriginal : ℚ
  durationRemaining : ℚ
  status : TimerStatus
deriving DecidableEq, Repr

/-- The timer constructed by `addTimer` (`part_009` lines 286-303):
status `running`, both durations set to the requested `durationSeconds`
(no validation of the argument). -/
def mkTimer (id : ℕ) (label : String) (durationSeconds : ℚ) : Timer :=
  { id := id
    label := label
    durationOriginal := durationSeconds
    durationRemaining := durationSeconds
    status := .running }

/-- One tick applied to a single timer, from the tick effect body
(`part_009` lines 253-279): non-`running` timers are returned unchanged;
otherwise `nextRemaining = durationRemaining - 1`; if `nextRemaining ≤ 0`
and the previous `durationRemaining > 0` the timer becomes `finished`
with remaining `0` (and a completion notification fires); otherwise
remaining becomes `max 0 nextRemaining`. -/
def tickTimer (t : Timer) : Timer :=
  if t.status ≠ .running then t
  else
    let nextRemaining := t.durationRemaining - 1
    if nextRemaining ≤ 0 ∧ t.durationRemaining > 0 then
      { t with durationRemaining := 0, status := .finished }
    else
      { t with durationRemaining := max 0 nextRemaining }

/-- The condition under which the tick emits a completion event
(toast + AI notification) for a timer, read off the same branch
(`part_009` line 257): the timer is running, `remaining - 1 ≤ 0`
and `remaining > 0`. -/
def tickFires (t : Timer) : Prop :=
  t.status = .running ∧ t.durationRemaining - 1 ≤ 0 ∧ 0 < t.durationRemaining

instance (t : Timer) : Decidable (tickFires t) := by
  unfold tickFires; infer_instance

/-- Whether some timer in the list is running (`prevTimers.some(t => t.status === 'running')`,
`part_009` line 250). -/
def hasRunning (l : List Timer) : Bool :=
  l.any fun t => decide (t.status = .running)

/-- One periodic tick over the whole timer list (`part_009` lines 248-280):
if no timer is running the list is returned unchanged, otherwise each
timer is mapped through `tickTimer`. -/
def tickTimers (l : List Timer) : List Timer :=
  if hasRunning l then l.map tickTimer else l

/-- Single-timer operations: the tick, and the per-timer effect of
`toggleTimer(id, pause)` (`part_009` lines 309-313) and `resetTimer(id)`
(lines 315-319) on the timer whose `id` matches. -/
inductive TOp
  | tick
  | pause
  | resume
  | reset
deriving DecidableEq, Repr

/-- Apply one operation to a timer: `tick` is `tickTimer`; `pause` /
`resume` set the status to `paused` / `running` leaving the durations
untouched; `reset` sets status `running` and restores
`durationRemaining := durationOriginal`. -/
def applyOp : TOp → Timer → Timer
  | .tick, t => tickTimer t
  | .pause, t => { t with status := .paused }
  | .resume, t => { t with status := .running }
  | .reset, t => { t with status := .running, durationRemaining := t.durationOriginal }

/-- Number of completion events emitted for one timer along a sequence of
operations (a completion fires exactly at a `tick` satisfying `tickFires`). -/
def countFinishes : List TOp → Timer → ℕ
  | [], _ => 0
  | op :: rest, t =>
      (if op = .tick ∧ tickFires t then 1 else 0) + countFinishes rest (applyOp op t)

/-! ## Audio playback scheduler

State observed by the inbound-audio handler (`part_009` lines 807-833), the
interruption handler (lines 769-780) and each buffer's `onended` callback
(lines 826-832): the `nextStartTimeRef` cursor, the `sourcesRef` live set
of scheduled buffer-source nodes (modelled by their ids), and the
speaking / listening / processing indicator flags. -/

/-- Playback scheduler state. -/
structure PlayState where
  nextStartTime : ℚ
  sources : List ℕ
  isSpeaking : Bool
  isListening : Bool
  isProcessing : Bool
deriving DecidableEq, Repr

/-- The start time assigned to a chunk arriving when the output clock reads
`now` (`part_009` lines 818-822): the cursor, snapped forward to `now` if it
has fallen behind (`if (nextStartTimeRef.current < now) nextStartTimeRef.current = now`). -/
def scheduledStart (now : ℚ) (s : PlayState) : ℚ :=
  max s.nextStartTime now

/-- Handling one inbound decoded audio chunk of duration `dur` (node id
`srcId`) at clock time `now` (`part_009` lines 809-825): set speaking,
clear listening/processing, start the buffer at `scheduledStart`, advance
the cursor by the chunk's duration, and add the node to the live set. -/
def handleChunk (now dur : ℚ) (srcId : ℕ) (s : PlayState) : PlayState :=
  { nextStartTime := scheduledStart now s + dur
    sources := s.sources.insert srcId
    isSpeaking := true
    isListening := false
    isProcessing := false }

/-- Handling the remote interruption signal at clock time `now`
(`part_009` lines 769-780): clear speaking/processing, set listening, stop
every node in the live set, clear the set, and reset the cursor to the
output clock's current time. -/
def handleInterrupt (now : ℚ) (_s : PlayState) : PlayState :=
  { nextStartTime := now
    sources := []
    isSpeaking := false
    isListening := true
    isProcessing := false }

/-- A buffer source's `onended` completion callback (`part_009` lines
826-832): remove the node from the live set; if the set becomes empty,
clear speaking and set listening. -/
def handleEnded (srcId : ℕ) (s : PlayState) : PlayState :=
  let remaining := s.sources.erase srcId
  { s with
    sources := remaining
    isSpeaking := if remaining = [] then false else s.isSpeaking
    isListening := if remaining = [] then true else s.isListening }

/-! ## Tool-call dispatcher

The `onmessage` tool-call branch (`part_009` lines 835-883).  The React
state `timers` (updated through queued functional `setTimers` updates,
which all land) is distinct from the mirror `timersRef.current`, which is
only re-synchronised by the `useEffect` at lines 142-144 after the message
handler has returned — inside one batch the mirror is the pre-batch
snapshot.  `getTimers` reads the mirror. -/

/-- Active recipe snapshot (`useRecipes`' `Recipe`, the fields the
dispatcher reads). -/
structure Recipe where
  title : String
  ingredients : List String
  instructions : List String
deriving DecidableEq, Repr

/-- The argument bag of a remote function call: the dispatcher reads
`label` and `durationSeconds` for `createTimer` and `text` for
`logObservation`; unread fields are ignored. -/
structure FCArgs where
  label : String
  durationSeconds : ℚ
  text : String
deriving DecidableEq, Repr

/-- One remote function call: correlation id, tool name, argument bag. -/
structure FunctionCall where
  id : ℕ
  name : String
  args : FCArgs
deriving DecidableEq, Repr

/-- The result bag attached to one resolved call, one constructor per
result shape produced by the dispatcher (`part_009` lines 841-871):
the generic `{result:"ok"}` default, the `createTimer` confirmation,
the `getTimers` list, the `logObservation` acknowledgment, the recipe
snapshot, and the explicit no-recipe marker. -/
inductive ToolResult
  | genericOk
  | timerSet (label : String) (durationSeconds : ℚ)
  | timerList (ts : List Timer)
  | logged
  | recipeInfo (title : String) (ingredients instructions : List String)
      (currentStep : ℕ) (currentStepText : String) (totalSteps : ℕ)
  | noActiveRecipe
deriving DecidableEq, Repr

/-- One entry of the batched `sendToolResponse` payload (`part_009`
lines 873-877): the call's echoed id and name plus its result. -/
structure ToolResponse where
  id : ℕ
  name : String
  response : ToolResult
deriving DecidableEq, Repr

/-- Keep the last 19 entries and append one (`prev.slice(-19)` followed by
the new entry, as in `setLogs`, `part_009` line 854). -/
def appendLog (l : List String) (entry : String) : List String :=
  l.drop (l.length - 19) ++ [entry]

/-- Application state seen by the dispatcher: the React `timers` state,
the `timersRef.current` mirror (`timersSnapshot`), the vision/observation
logs, the active recipe and current step refs, and a fresh-id counter
standing in for `Math.random()` timer ids. -/
structure DispatchState where
  timers : List Timer
  timersSnapshot : List Timer
  logs : List String
  activeRecipe : Option Recipe
  currentStep : ℕ
  nextId : ℕ
deriving DecidableEq, Repr

/-- Resolve a single function call (`part_009` lines 840-871): the result
starts as the generic `{result:"ok"}`; `createTimer` calls `addTimer`
(appending `mkTimer` to the React state) and confirms; `getTimers` returns
the `timersRef.current` mirror; `logObservation` appends to the logs;
`getActiveRecipe` returns the recipe snapshot with 1-based current step,
the current step's text (or empty) and total step count, or the
no-recipe marker. Unrecognised names leave the generic result. -/
def dispatchCall (s : DispatchState) (fc : FunctionCall) : DispatchState × ToolResult :=
  if fc.name = "createTimer" then
    ({ s with
        timers := s.timers ++ [mkTimer s.nextId fc.args.label fc.args.durationSeconds]
        nextId := s.nextId + 1 },
     .timerSet fc.args.label fc.args.durationSeconds)
  else if fc.name = "getTimers" then
    (s, .timerList s.timersSnapshot)
  else if fc.name = "logObservation" then
    ({ s with logs := appendLog s.logs fc.args.text }, .logged)
  else if fc.name = "getActiveRecipe" then
    match s.activeRecipe with
    | some r =>
        (s, .recipeInfo r.title r.ingredients r.instructions
              (s.currentStep + 1) (r.instructions.getD s.currentStep "")
              r.instructions.length)
    | none => (s, .noActiveRecipe)
  else
    (s, .genericOk)

/-- Resolve a whole tool-call batch in arrival order, collecting one
response per invocation with its echoed id and name, exactly as the
`for (const fc of msg.toolCall.functionCalls)` loop builds `responses`
before the single `sendToolResponse` (`part_009` lines 839-882). -/
def dispatchBatch (s : DispatchState) : List FunctionCall → DispatchState × List ToolResponse
  | [] => (s, [])
  | fc :: rest =>
      let step := dispatchCall s fc
      let tail := dispatchBatch step.1 rest
      (tail.1, ⟨fc.id, fc.name, step.2⟩ :: tail.2)

/-- The ref-sync effect (`part_009` lines 142-144), which runs only after
the current message handler has returned: `timersRef.current = timers`. -/
def syncTimersRef (s : DispatchState) : DispatchState :=
  { s with timersSnapshot := s.timers }

/-! ## Session lifecycle

`stopSession(keepCamera)` (`part_009` lines 194-244), the `onclose` /
`onerror` callbacks (lines 885-927, both ending in `stopSession(true)`),
the UI disconnect (`onDisconnect={() => stopSession(false)}`, line 1054),
and the guarded `connectToGemini` (lines 565-989). -/

/-- Session lifecycle state: connection flags, teardown-relevant resource
flags, the media-stream (camera) handle, and a counter of streaming
channels opened (`ai.live.connect` invocations). -/
structure SessionState where
  hasApiKey : Bool
  isConnecting : Bool
  isConnected : Bool
  errorSet : Bool
  audioCtxOpen : Bool
  inputCtxOpen : Bool
  playbackSources : List ℕ
  videoIntervalActive : Bool
  visionIntervalActive : Bool
  cameraLive : Bool
  isCameraActive : Bool
  sessionPromiseActive : Bool
  isSpeaking : Bool
  isListening : Bool
  isProcessing : Bool
  channelsOpened : ℕ
deriving DecidableEq, Repr

/-- `stopSession(keepCamera)` (`part_009` lines 194-244): close both audio
contexts, stop and clear every playback source, clear the video and vision
intervals, release the media stream and camera-active flag only when
`keepCamera` is false, null the session promise, and clear all
connection / conversation flags.  The API key, error message and channel
count are untouched. -/
def stopSession (keepCamera : Bool) (s : SessionState) : SessionState :=
  { hasApiKey := s.hasApiKey
    errorSet := s.errorSet
    channelsOpened := s.channelsOpened
    isConnecting := false
    isConnected := false
    audioCtxOpen := false
    inputCtxOpen := false
    playbackSources := []
    videoIntervalActive := false
    visionIntervalActive := false
    cameraLive := keepCamera && s.cameraLive
    isCameraActive := keepCamera && s.isCameraActive
    sessionPromiseActive := false
    isSpeaking := false
    isListening := false
    isProcessing := false }

/-- The remote `onclose` / `onerror` callbacks while a session exists
(`part_009` lines 885-927): record an error message, then
`stopSession(true)` — the camera is kept. -/
def handleRemoteClose (s : SessionState) : SessionState :=
  stopSession true { s with errorSet := true }

/-- The explicit user-initiated disconnect (`part_009` line 1054):
`stopSession(false)` — the camera is released. -/
def userDisconnect (s : SessionState) : SessionState :=
  stopSession false s

/-- `connectToGemini` (`part_009` lines 565-989), success path: bail out
setting an error if no API key (lines 566-569); return unchanged if
already connecting or connected (lines 572-575); otherwise clean up any
prior session with `stopSession(true)`, set `isConnecting`, clear the
error, open the audio contexts, acquire the media stream (success case:
camera live), open exactly one streaming channel (`ai.live.connect`,
line 712), store the session promise and start the video relay interval. -/
def connectToGemini (s : SessionState) : SessionState :=
  if s.hasApiKey = false then { s with errorSet := true }
  else if s.isConnecting || s.isConnected then s
  else
    { stopSession true s with
        isConnecting := true
        errorSet := false
        audioCtxOpen := true
        inputCtxOpen := true
        cameraLive := true
        isCameraActive := true
        sessionPromiseActive := true
        videoIntervalActive := true
        channelsOpened := s.channelsOpened + 1 }

/-! ## Vision timer suggestions

`analyzeVision`'s `timerSuggestion` handling (`part_009` lines 461-491)
with the `recentTimerLabelsRef` suppression set (lines 418-419, entries
removed again by a 30-second `setTimeout`, line 479-481).  Suppression-set
entries are modelled as pairs of lower-cased label and creation time, an
entry being live at time `now` while `now < createdAt + 30`. -/

/-- JS `String.prototype.includes` on char lists: `needle` occurs as a
contiguous substring of `hay`. -/
def hasSubstr (needle : List Char) : List Char → Bool
  | [] => needle.isEmpty
  | c :: t => needle.isPrefixOf (c :: t) || hasSubstr needle t

/-- `hay.includes(needle)` on strings. -/
def strIncludes (hay needle : String) : Bool :=
  hasSubstr needle.data hay.data

/-- A timer suggestion returned by the still-image analysis endpoint:
`{label, durationSeconds, reason}`. -/
structure TimerSuggestion where
  label : String
  durationSeconds : ℚ
  reason : String
deriving DecidableEq, Repr

/-- `hasExistingTimer` (`part_009` lines 467-469): some existing timer's
lower-cased label contains the suggested key, or the key contains it. -/
def hasOverlappingTimer (ts : List Timer) (labelKey : String) : Bool :=
  ts.any fun t =>
    strIncludes t.label.toLower labelKey || strIncludes labelKey t.label.toLower

/-- `recentTimerLabelsRef.current.has(labelKey)` at time `now`
(`part_009` line 470): the key was added within the last 30 seconds. -/
def recentlyCreated (recent : List (String × ℚ)) (now : ℚ) (labelKey : String) : Bool :=
  recent.any fun e => e.1 == labelKey && decide (now < e.2 + 30)

/-- Vision-side application state: the timer list (read through
`timersRef`, synchronised between the seconds-apart analyses), the
suppression entries, the vision logs, and the fresh-id counter. -/
structure VisionState where
  timers : List Timer
  recent : List (String × ℚ)
  logs : List String
  nextId : ℕ
deriving DecidableEq, Repr

/-- Handling one `timerSuggestion` at time `now` (`part_009` lines
462-491): compute the lower-cased key; if no existing timer's label
overlaps it, it was not recently auto-created, and `durationSeconds > 0`,
then create the timer via `addTimer`, record the key in the suppression
set, and log the creation reason if one was given; otherwise do nothing. -/
def handleTimerSuggestion (now : ℚ) (sugg : TimerSuggestion) (s : VisionState) : VisionState :=
  let labelKey := sugg.label.toLower
  if !hasOverlappingTimer s.timers labelKey
      && !recentlyCreated s.recent now labelKey
      && decide (0 < sugg.durationSeconds) then
    { timers := s.timers ++ [mkTimer s.nextId sugg.label sugg.durationSeconds]
      recent := s.recent ++ [(labelKey, now)]
      logs := if sugg.reason ≠ "" then appendLog s.logs sugg.reason else s.logs
      nextId := s.nextId + 1 }
  else s

/-! ## Helper lemmas -/

/-- A timer that is not running is untouched by the tick. -/
lemma tickTimer_of_not_running {t : Timer} (h : t.status ≠ .running) :
    tickTimer t = t := by
  simp [tickTimer, h]

/-- A running timer's remaining duration after a tick is `max 0 (remaining - 1)`
(the `finished` branch also lands on `0 = max 0 (remaining - 1)` there). -/
lemma tickTimer_running_remaining {t : Timer} (h : t.status = .running) :
    (tickTimer t).durationRemaining = max 0 (t.durationRemaining - 1) := by
  unfold tickTimer
  simp only [h, ne_eq, not_true_eq_false, if_false]
  by_cases hc : t.durationRemaining - 1 ≤ 0 ∧ t.durationRemaining > 0
  · rw [if_pos hc]
    exact (max_eq_left hc.1).symm
  · rw [if_neg hc]

/-- A running timer with non-positive remaining duration is clamped to
remaining `0` and stays running. -/
lemma tickTimer_running_nonpos {t : Timer} (hs : t.status = .running)
    (hr : t.durationRemaining ≤ 0) :
    tickTimer t = { t with durationRemaining := 0 } := by
  have hcond : ¬(t.durationRemaining - 1 ≤ 0 ∧ t.durationRemaining > 0) := by
    rintro ⟨-, h2⟩; linarith
  unfold tickTimer
  simp only [hs, ne_eq, not_true_eq_false, if_false, if_neg hcond]
  congr 1
  exact max_eq_left (by linarith)

/-- A timer with non-positive remaining duration emits no completion event. -/
lemma not_tickFires_of_nonpos {t : Timer} (h : t.durationRemaining ≤ 0) :
    ¬ tickFires t := by
  rintro ⟨-, -, h3⟩; linarith

/-- Ticking preserves non-positivity of the remaining duration. -/
lemma tickTimer_remaining_nonpos {t : Timer} (h : t.durationRemaining ≤ 0) :
    (tickTimer t).durationRemaining ≤ 0 := by
  rcases eq_or_ne t.status .running with hs | hs
  · rw [tickTimer_running_nonpos hs h]
  · rw [tickTimer_of_not_running hs]; exact h

/-- Non-`reset` operations preserve non-positivity of the remaining duration. -/
lemma applyOp_remaining_nonpos {op : TOp} {t : Timer} (hop : op ≠ .reset)
    (h : t.durationRemaining ≤ 0) : (applyOp op t).durationRemaining ≤ 0 := by
  cases op with
  | tick => exact tickTimer_remaining_nonpos h
  | pause => exact h
  | resume => exact h
  | reset => exact absurd rfl hop

/-- Once the remaining duration is non-positive, no completion event fires
along any reset-free operation sequence. -/
lemma countFinishes_eq_zero : ∀ {ops : List TOp} {t : Timer}, TOp.reset ∉ ops →
    t.durationRemaining ≤ 0 → countFinishes ops t = 0
  | [], _, _, _ => rfl
  | op :: rest, t, hr, h => by
      have hop : op ≠ .reset := by rintro rfl; exact hr (List.mem_cons_self _ _)
      have hrest : TOp.reset ∉ rest := fun hm => hr (List.mem_cons_of_mem _ hm)
      have hnf : ¬(op = .tick ∧ tickFires t) :=
        fun hc => not_tickFires_of_nonpos h hc.2
      unfold countFinishes
      rw [if_neg hnf, countFinishes_eq_zero hrest (applyOp_remaining_nonpos hop h)]

/-- A firing tick lands the timer on remaining `0` with status `finished`. -/
lemma tickFires_post {t : Timer} (hf : tickFires t) :
    (tickTimer t).durationRemaining = 0 ∧ (tickTimer t).status = .finished := by
  obtain ⟨h1, h2, h3⟩ := hf
  unfold tickTimer
  simp only [h1, ne_eq, not_true_eq_false, if_false]
  rw [if_pos ⟨h2, h3⟩]
  exact ⟨rfl, rfl⟩

/-- If no timer in the list is running, none has `running` status. -/
lemma hasRunning_eq_false {l : List Timer} (h : hasRunning l = false) :
    ∀ t ∈ l, t.status ≠ .running := by
  intro t ht
  have := List.any_eq_false.mp h t ht
  simpa using this

/-- Mapping the tick over a list with no running timer changes nothing. -/
lemma map_tickTimer_of_none : ∀ {l : List Timer},
    (∀ t ∈ l, t.status ≠ TimerStatus.running) → l.map tickTimer = l
  | [], _ => rfl
  | a :: rest, hall => by
      rw [List.map_cons, tickTimer_of_not_running (hall a (List.mem_cons_self _ _)),
        map_tickTimer_of_none (fun t ht => hall t (List.mem_cons_of_mem _ ht))]

/-- The tick over the whole list agrees with mapping the per-timer tick,
with or without the `hasRunning` short-circuit. -/
lemma tickTimers_eq_map (l : List Timer) : tickTimers l = l.map tickTimer := by
  unfold tickTimers
  by_cases h : hasRunning l = true
  · rw [if_pos h]
  · rw [if_neg h]
    have hfalse : hasRunning l = false := by simpa using h
    exact (map_tickTimer_of_none (hasRunning_eq_false hfalse)).symm

/-! ## Claim theorems -/

/-- Claim C1, counterexample: with the cursor at 0 and the live set empty,
a chunk of duration 1 arriving at clock time 0 is scheduled at 0 and moves
the cursor to 1; a next chunk arriving at clock time 5 — with no
interruption processed in between — is scheduled at 5, not at 0 + 1: the
snap-forward breaks the stated `start(n+1) = start(n) + duration(n)`
equation even though no interruption occurred. -/
theorem chunk_gapless_counterexample :
    scheduledStart 0 ⟨0, [], false, false, false⟩ = 0 ∧
    (handleChunk 0 1 0 ⟨0, [], false, false, false⟩).nextStartTime = 1 ∧
    scheduledStart 5 (handleChunk 0 1 0 ⟨0, [], false, false, false⟩) = 5 ∧
    scheduledStart 5 (handleChunk 0 1 0 ⟨0, [], false, false, false⟩) ≠
      scheduledStart 0 ⟨0, [], false, false, false⟩ + 1 := by
  refine ⟨?_, ?_, ?_, ?_⟩ <;> norm_num [scheduledStart, handleChunk, max_def]

/-- Claim C1, amended: each inbound chunk starts exactly at the cursor
snapped forward to the clock (`max nextStartTime now`), and the cursor then
advances by the chunk's duration; consequently chunk n+1 starts exactly at
chunk n's start plus chunk n's duration whenever no interruption occurred
between them and the output clock has not overtaken the advanced cursor
(otherwise chunk n+1 is snapped to start at the clock's current time). -/
theorem chunk_schedule_gapless (s : PlayState) (now1 dur1 now2 : ℚ) (i1 : ℕ) :
    (handleChunk now1 dur1 i1 s).nextStartTime = scheduledStart now1 s + dur1 ∧
    (now2 ≤ (handleChunk now1 dur1 i1 s).nextStartTime →
      scheduledStart now2 (handleChunk now1 dur1 i1 s) =
        scheduledStart now1 s + dur1) := by
  refine ⟨rfl, fun h => ?_⟩
  exact max_eq_left h

/-- Witness for `chunk_schedule_gapless` at a concrete back-to-back pair. -/
theorem chunk_schedule_gapless_witness :
    scheduledStart 1 (handleChunk 0 1 0 ⟨0, [], false, false, false⟩) =
      scheduledStart 0 ⟨0, [], false, false, false⟩ + 1 :=
  (chunk_schedule_gapless ⟨0, [], false, false, false⟩ 0 1 1 0).2
    (by norm_num [handleChunk, scheduledStart, max_def])

/-- Claim C2: the interruption handler empties the live set (every
previously scheduled unit is removed), resets the cursor to a value ≥ the
output clock's current time (in fact exactly to it), clears the speaking
flag, and afterwards a stopped unit's completion callback is a no-op on
the state: `handleEnded` applied to the post-interruption state returns it
unchanged for every unit id. -/
theorem interrupt_flushes_playback (now : ℚ) (s : PlayState) :
    (handleInterrupt now s).sources = [] ∧
    now ≤ (handleInterrupt now s).nextStartTime ∧
    (∀ srcId, srcId ∈ s.sources → srcId ∉ (handleInterrupt now s).sources) ∧
    (∀ srcId, handleEnded srcId (handleInterrupt now s) = handleInterrupt now s) ∧
    (handleInterrupt now s).isSpeaking = false := by
  refine ⟨rfl, le_refl now, ?_, ?_, rfl⟩
  · intro i _ hmem
    simp [handleInterrupt] at hmem
  · intro i
    rfl

/-- Witness for `interrupt_flushes_playback`: the unit scheduled before a
concrete interruption is no longer in the live set afterwards. -/
theorem interrupt_flushes_playback_witness :
    (5 : ℕ) ∉ (handleInterrupt 2 ⟨7, [5], true, false, false⟩).sources :=
  (interrupt_flushes_playback 2 ⟨7, [5], true, false, false⟩).2.2.1 5 (by decide)

/-- Claim C8: a remote close (or error) tears the session down keeping the
camera handle live and the camera-active flag as they were, ending in the
disconnected state, while an explicit user disconnect releases the camera;
the remaining teardown effects — closing both audio contexts, flushing the
playback set, clearing the video and vision intervals, nulling the session
promise — happen identically in both cases. -/
theorem teardown_camera_retention (s : SessionState) :
    (handleRemoteClose s).cameraLive = s.cameraLive ∧
    (handleRemoteClose s).isCameraActive = s.isCameraActive ∧
    (handleRemoteClose s).isConnected = false ∧
    (handleRemoteClose s).isConnecting = false ∧
    (userDisconnect s).cameraLive = false ∧
    (userDisconnect s).isCameraActive = false ∧
    (userDisconnect s).isConnected = false ∧
    (handleRemoteClose s).audioCtxOpen = false ∧
    (userDisconnect s).audioCtxOpen = false ∧
    (handleRemoteClose s).inputCtxOpen = false ∧
    (userDisconnect s).inputCtxOpen = false ∧
    (handleRemoteClose s).playbackSources = [] ∧
    (userDisconnect s).playbackSources = [] ∧
    (handleRemoteClose s).videoIntervalActive = false ∧
    (userDisconnect s).videoIntervalActive = false ∧
    (handleRemoteClose s).visionIntervalActive = false ∧
    (userDisconnect s).visionIntervalActive = false ∧
    (handleRemoteClose s).sessionPromiseActive = false ∧
    (userDisconnect s).sessionPromiseActive = false := by
  unfold handleRemoteClose userDisconnect stopSession
  simp

/-- Claim C4: with an API key configured, a connect request made while the
state is already `connecting` or `connected` returns the state unchanged
(no channel opened, no error raised); and from an idle state a connect
leaves the orchestrator `connecting` with exactly one more channel opened,
so an immediately repeated connect is absorbed by the guard and the pair
of calls still opens exactly one channel. -/
theorem connect_guard_single_session (s : SessionState) (hk : s.hasApiKey = true) :
    ((s.isConnecting = true ∨ s.isConnected = true) → connectToGemini s = s) ∧
    (s.isConnecting = false → s.isConnected = false →
      (connectToGemini s).isConnecting = true ∧
      (connectToGemini s).isConnected = false ∧
      (connectToGemini s).channelsOpened = s.channelsOpened + 1 ∧
      connectToGemini (connectToGemini s) = connectToGemini s ∧
      (connectToGemini (connectToGemini s)).channelsOpened = s.channelsOpened + 1) := by
  constructor
  · intro h
    unfold connectToGemini
    rcases h with h | h <;> simp [hk, h]
  · intro h1 h2
    have hfirst : connectToGemini s =
        { stopSession true s with
            isConnecting := true
            errorSet := false
            audioCtxOpen := true
            inputCtxOpen := true
            cameraLive := true
            isCameraActive := true
            sessionPromiseActive := true
            videoIntervalActive := true
            channelsOpened := s.channelsOpened + 1 } := by
      unfold connectToGemini
      simp [hk, h1, h2]
    have hsecond : connectToGemini (connectToGemini s) = connectToGemini s := by
      rw [hfirst]
      unfold connectToGemini
      simp [stopSession, hk]
    refine ⟨?_, ?_, ?_, hsecond, ?_⟩
    · rw [hfirst]
    · rw [hfirst]; simp [stopSession]
    · rw [hfirst]
    · rw [hsecond, hfirst]

/-- Witness for `connect_guard_single_session`: a double connect from a
concrete idle state opens exactly one channel. -/
theorem connect_guard_single_session_witness :
    connectToGemini (connectToGemini
        ⟨true, false, false, false, false, false, [], false, false,
          false, false, false, false, false, false, 0⟩) =
      connectToGemini
        ⟨true, false, false, false, false, false, [], false, false,
          false, false, false, false, false, false, 0⟩ :=
  ((connect_guard_single_session _ rfl).2 rfl rfl).2.2.2.1

/-- Claim C5, counterexample: the claim quantifies over sequences that may
contain `reset`; a 1-second timer finishes at the first tick, is reset to
its original duration, and finishes again at the next tick — two
completion transitions for the same Timer, refuting "finished is reached
at most once per Timer" over sequences containing reset. -/
theorem finished_twice_after_reset :
    countFinishes [TOp.tick, TOp.reset, TOp.tick] (mkTimer 0 "Egg" 1) = 2 := by
  norm_num [countFinishes, applyOp, tickTimer, tickFires, mkTimer, max_def]

/-- Claim C5, amended: along any sequence of tick, pause and resume
operations (no reset), a Timer reaches `finished` at most once, and the
transition happens only at a tick on a running timer with positive
remaining duration, landing exactly on remaining `0` with status
`finished`; a `reset` restores the original duration and allows the timer
to finish again. -/
theorem finished_at_most_once_without_reset :
    (∀ (ops : List TOp) (t : Timer), TOp.reset ∉ ops → countFinishes ops t ≤ 1) ∧
    (∀ t : Timer, tickFires t →
      t.status = .running ∧ 0 < t.durationRemaining ∧
      (tickTimer t).durationRemaining = 0 ∧ (tickTimer t).status = .finished) := by
  constructor
  · intro ops
    induction ops with
    | nil => intro t _; simp [countFinishes]
    | cons op rest ih =>
        intro t hr
        have hop : op ≠ .reset := by
          rintro rfl; exact hr (List.mem_cons_self _ _)
        have hrest : TOp.reset ∉ rest := fun hm => hr (List.mem_cons_of_mem _ hm)
        unfold countFinishes
        by_cases hc : op = .tick ∧ tickFires t
        · rw [if_pos hc]
          have h0 : (applyOp op t).durationRemaining ≤ 0 := by
            rcases hc with ⟨rfl, hf⟩
            exact le_of_eq (tickFires_post hf).1
          rw [countFinishes_eq_zero hrest h0]
        · rw [if_neg hc]
          simpa using ih (applyOp op t) hrest
  · intro t hf
    exact ⟨hf.1, hf.2.2, (tickFires_post hf).1, (tickFires_post hf).2⟩

/-- Witness for `finished_at_most_once_without_reset`: a concrete
reset-free run fires at most one completion. -/
theorem finished_at_most_once_without_reset_witness :
    countFinishes [TOp.tick, TOp.tick, TOp.pause, TOp.resume] (mkTimer 0 "Egg" 1) ≤ 1 :=
  finished_at_most_once_without_reset.1 [TOp.tick, TOp.tick, TOp.pause, TOp.resume]
    (mkTimer 0 "Egg" 1) (by decide)

/-- Claim C6, counterexample: a `createTimer` tool call with
`durationSeconds = -3` (the dispatcher does not validate the argument)
creates a running Timer with remaining `-3`; the next tick clamps its
remaining up to `0`, an increase — so "remaining is monotonically
non-increasing while running" fails for that reachable Timer. -/
theorem tick_negative_remaining_counterexample :
    (dispatchCall ⟨[], [], [], none, 0, 0⟩ ⟨1, "createTimer", ⟨"Stew", -3, ""⟩⟩).1.timers =
      [mkTimer 0 "Stew" (-3)] ∧
    (mkTimer 0 "Stew" (-3)).status = .running ∧
    (mkTimer 0 "Stew" (-3)).durationRemaining = -3 ∧
    (tickTimer (mkTimer 0 "Stew" (-3))).durationRemaining = 0 ∧
    ¬ (tickTimer (mkTimer 0 "Stew" (-3))).durationRemaining ≤
        (mkTimer 0 "Stew" (-3)).durationRemaining := by
  refine ⟨rfl, rfl, rfl, ?_, ?_⟩ <;>
    norm_num [tickTimer, mkTimer, max_def]

/-- Claim C6, amended: on each tick every running Timer's remaining
duration becomes `max 0 (remaining - 1)` — decremented by 1 and clamped
at 0 — while paused and finished Timers are completely unchanged (the
list-level tick is exactly the per-timer map); hence remaining is
monotonically non-increasing while running for every Timer whose
remaining is non-negative (every timer created with a non-negative
duration); a running Timer with negative remaining is clamped up to 0. -/
theorem tick_decrement_clamped :
    (∀ t : Timer, t.status = .running →
      (tickTimer t).durationRemaining = max 0 (t.durationRemaining - 1)) ∧
    (∀ t : Timer, t.status ≠ .running → tickTimer t = t) ∧
    (∀ t : Timer, t.status = .running → 0 ≤ t.durationRemaining →
      (tickTimer t).durationRemaining ≤ t.durationRemaining) ∧
    (∀ l : List Timer, tickTimers l = l.map tickTimer) := by
  refine ⟨fun t h => tickTimer_running_remaining h,
    fun t h => tickTimer_of_not_running h, ?_, tickTimers_eq_map⟩
  intro t h h0
  rw [tickTimer_running_remaining h]
  exact max_le h0 (by linarith)

/-- Witness for `tick_decrement_clamped` at a concrete running timer. -/
theorem tick_decrement_clamped_witness :
    (tickTimer (mkTimer 0 "Rice" 10)).durationRemaining ≤
      (mkTimer 0 "Rice" 10).durationRemaining :=
  tick_decrement_clamped.2.2.1 (mkTimer 0 "Rice" 10) rfl (by norm_num [mkTimer])

/-- Claim C10: a `createTimer` invocation with `durationSeconds ≤ 0`
still creates a Timer with status `running` and remaining equal to that
value; every tick thereafter leaves it running with remaining clamped at
0, the completion transition never fires (it requires the previous
remaining to be strictly positive), so the timer never reaches `finished`
and no completion event is ever emitted for it. -/
theorem nonpositive_timer_never_finishes (i : ℕ) (label : String) (d : ℚ)
    (hd : d ≤ 0) :
    (mkTimer i label d).status = .running ∧
    (mkTimer i label d).durationRemaining = d ∧
    (∀ n : ℕ,
      (tickTimer^[n] (mkTimer i label d)).status = .running ∧
      (tickTimer^[n + 1] (mkTimer i label d)).durationRemaining = 0 ∧
      ¬ tickFires (tickTimer^[n] (mkTimer i label d))) := by
  have key : ∀ n : ℕ, (tickTimer^[n] (mkTimer i label d)).status = .running ∧
      (tickTimer^[n] (mkTimer i label d)).durationRemaining ≤ 0 := by
    intro n
    induction n with
    | zero => exact ⟨rfl, hd⟩
    | succ n ih =>
        rw [Function.iterate_succ_apply', tickTimer_running_nonpos ih.1 ih.2]
        exact ⟨ih.1, le_refl 0⟩
  refine ⟨rfl, rfl, fun n => ⟨(key n).1, ?_, not_tickFires_of_nonpos (key n).2⟩⟩
  rw [Function.iterate_succ_apply', tickTimer_running_nonpos (key n).1 (key n).2]

/-- Witness for `nonpositive_timer_never_finishes`: a zero-duration timer
still has remaining 0 (and never finished) after four ticks. -/
theorem nonpositive_timer_never_finishes_witness :
    (tickTimer^[4] (mkTimer 0 "X" 0)).durationRemaining = 0 :=
  ((nonpositive_timer_never_finishes 0 "X" 0 le_rfl).2.2 3).2.1

/-- Claim C9: a tool invocation whose name is none of `createTimer`,
`getTimers`, `logObservation`, `getActiveRecipe` is resolved with the
generic `{result:"ok"}` and no state change, and every batch — unknown
names included — yields exactly one response per invocation, each echoing
the originating call's identifier, so an unknown tool never blocks the
remote turn. -/
theorem unknown_tool_resolves_ok :
    (∀ (s : DispatchState) (fc : FunctionCall),
      fc.name ≠ "createTimer" → fc.name ≠ "getTimers" →
      fc.name ≠ "logObservation" → fc.name ≠ "getActiveRecipe" →
      dispatchCall s fc = (s, ToolResult.genericOk)) ∧
    (∀ (s : DispatchState) (fcs : List FunctionCall),
      (dispatchBatch s fcs).2.length = fcs.length ∧
      (dispatchBatch s fcs).2.map ToolResponse.id = fcs.map FunctionCall.id) := by
  constructor
  · intro s fc h1 h2 h3 h4
    simp [dispatchCall, h1, h2, h3, h4]
  · intro s fcs
    induction fcs generalizing s with
    | nil => exact ⟨rfl, rfl⟩
    | cons fc rest ih =>
        unfold dispatchBatch
        refine ⟨?_, ?_⟩
        · simpa using (ih (dispatchCall s fc).1).1
        · simpa using (ih (dispatchCall s fc).1).2

/-- Witness for `unknown_tool_resolves_ok` at a concrete unknown name. -/
theorem unknown_tool_resolves_ok_witness :
    dispatchCall ⟨[], [], [], none, 0, 0⟩ ⟨9, "danceParty", ⟨"", 0, ""⟩⟩ =
      (⟨[], [], [], none, 0, 0⟩, ToolResult.genericOk) :=
  unknown_tool_resolves_ok.1 ⟨[], [], [], none, 0, 0⟩ ⟨9, "danceParty", ⟨"", 0, ""⟩⟩
    (by decide) (by decide) (by decide) (by decide)

/-- Claim C7: a vision timer suggestion creates a Timer only if its
`durationSeconds` is positive, no existing Timer's label overlaps the
suggested label (case-insensitive substring match in either direction),
and the same key is not in the recent-suppression window; in the concrete
scenario of two analyses 5 seconds apart both suggesting "Pasta" with
positive duration, the first creates a Timer and the second changes
nothing — only one Timer is created. -/
theorem vision_suggestion_dedup :
    (∀ (now : ℚ) (sugg : TimerSuggestion) (s : VisionState),
      handleTimerSuggestion now sugg s ≠ s →
        0 < sugg.durationSeconds ∧
        hasOverlappingTimer s.timers sugg.label.toLower = false ∧
        recentlyCreated s.recent now sugg.label.toLower = false) ∧
    ((handleTimerSuggestion 0 ⟨"Pasta", 480, "Pasta added to boiling water"⟩
        ⟨[], [], [], 0⟩).timers.length = 1 ∧
      handleTimerSuggestion 5 ⟨"Pasta", 480, "Pasta added to boiling water"⟩
          (handleTimerSuggestion 0 ⟨"Pasta", 480, "Pasta added to boiling water"⟩
            ⟨[], [], [], 0⟩) =
        handleTimerSuggestion 0 ⟨"Pasta", 480, "Pasta added to boiling water"⟩
          ⟨[], [], [], 0⟩) := by
  refine ⟨?_, ?_, ?_⟩
  · intro now sugg s hne
    by_cases hc : (!hasOverlappingTimer s.timers sugg.label.toLower
        && !recentlyCreated s.recent now sugg.label.toLower
        && decide (0 < sugg.durationSeconds)) = true
    · have hc' := hc
      simp only [Bool.and_eq_true, Bool.not_eq_true', decide_eq_true_eq] at hc'
      exact ⟨hc'.2, hc'.1.1, hc'.1.2⟩
    · exfalso
      apply hne
      unfold handleTimerSuggestion
      rw [if_neg hc]
  · norm_num [handleTimerSuggestion, hasOverlappingTimer, recentlyCreated, mkTimer]
  · norm_num [handleTimerSuggestion, hasOverlappingTimer, recentlyCreated, mkTimer,
      strIncludes, hasSubstr, appendLog]

/-- Witness for `vision_suggestion_dedup`: the suggestion that does create
a Timer indeed satisfies all three guard conditions. -/
theorem vision_suggestion_dedup_witness :
    0 < (TimerSuggestion.mk "Pasta" 480 "r").durationSeconds ∧
    hasOverlappingTimer (VisionState.mk [] [] [] 0).timers
        (TimerSuggestion.mk "Pasta" 480 "r").label.toLower = false ∧
    recentlyCreated (VisionState.mk [] [] [] 0).recent 0
        (TimerSuggestion.mk "Pasta" 480 "r").label.toLower = false :=
  vision_suggestion_dedup.1 0 (TimerSuggestion.mk "Pasta" 480 "r")
    (VisionState.mk [] [] [] 0)
    (by norm_num [handleTimerSuggestion, hasOverlappingTimer, recentlyCreated])

/-- Claim C3: evaluating the dispatcher at the batch
`[createTimer(label "Pasta", 60s); getTimers; getActiveRecipe]` from an
empty initial state.  The batch does yield exactly 3 results, each echoing
its originating call id, and after the message the application state holds
the created Timer (which the post-render ref sync also exposes) — but the
`getTimers` result inside the same batch is the stale pre-batch snapshot
`timerList []`, which does not contain the Timer created by the
`createTimer` call of the same batch, contradicting the claimed round-trip
property. -/
theorem toolcall_batch_stale_snapshot :
    (dispatchBatch ⟨[], [], [], none, 0, 0⟩
        [⟨1, "createTimer", ⟨"Pasta", 60, ""⟩⟩,
         ⟨2, "getTimers", ⟨"", 0, ""⟩⟩,
         ⟨3, "getActiveRecipe", ⟨"", 0, ""⟩⟩]).2 =
      [⟨1, "createTimer", .timerSet "Pasta" 60⟩,
       ⟨2, "getTimers", .timerList []⟩,
       ⟨3, "getActiveRecipe", .noActiveRecipe⟩] ∧
    (dispatchBatch ⟨[], [], [], none, 0, 0⟩
        [⟨1, "createTimer", ⟨"Pasta", 60, ""⟩⟩,
         ⟨2, "getTimers", ⟨"", 0, ""⟩⟩,
         ⟨3, "getActiveRecipe", ⟨"", 0, ""⟩⟩]).1.timers =
      [mkTimer 0 "Pasta" 60] ∧
    (syncTimersRef (dispatchBatch ⟨[], [], [], none, 0, 0⟩
        [⟨1, "createTimer", ⟨"Pasta", 60, ""⟩⟩,
         ⟨2, "getTimers", ⟨"", 0, ""⟩⟩,
         ⟨3, "getActiveRecipe", ⟨"", 0, ""⟩⟩]).1).timersSnapshot =
      [mkTimer 0 "Pasta" 60] ∧
    mkTimer 0 "Pasta" 60 ∉ ([] : List Timer) := by
  refine ⟨by decide, by decide, by decide, by decide⟩

end Chef
